import Mathlib

/-!
Shallow embedding of the wordclock sketch (src/wordclock.ino, v0.3) and
proofs about the spec's claims.

The embedding follows the source closely:
* the segment catalog (`IT`, `IS`, `W_MINS`, `TO`, `PAST`, `W_HOURS`, `AM`,
  `PM`, `DIGITS`, `SCHEDULE`, `CHK`) is copied from the tables in the sketch;
* `handleDisplayTime` is the pure core of the display routine: given the
  hour and minute read from the RTC it returns the list of words and digit
  segments that are colored.  The one array access that can leave the table
  (`W_MINS[idx]`) is modelled with a guarded (Option-returning) lookup and a
  flag `minuteIndexOK` recording whether the computed index was in range;
* `evaluateIRResult`, `increaseBrightness`, `increaseHue`,
  `setLEDModeState` and `shouldGoToSleep` act on an explicit state record
  instead of the sketch's globals;
* the unknown-protocol cooldown (`irCtr` / `pauseAnimations` / `IR_PAUSE`)
  is modelled as a transition system over the events that touch it: the
  Timer1 interrupt tick and one iteration of `loop`.
-/

-- ===================================
-- Configuration constants (from the #define block)
-- ===================================

def LED_PIXELS : Nat := 121

def LED_MODE_NORMAL : Nat := 0
def LED_MODE_RAINBOW : Nat := 1
def LED_MODE_RAINBOW_GLITTER : Nat := 2
def LED_MODE_CONFETTI : Nat := 3
def LED_MODE_SINELON : Nat := 4
def LED_MODE_BPM : Nat := 5
def LED_MODE_JUGGLE : Nat := 6
def LED_MODE_MATRIX : Nat := 7
def LED_BRIGHTNESS_STEP : Int := 10
def LED_HUE_STEP : Int := 10

def RTC_ALIVE_FROM : Nat := 6
def RTC_ALIVE_TO : Nat := 23
def MIN_STEP : Int := 5
def MIN_PARTS : Int := 6

def IR_PAUSE : Nat := 3

-- ===================================
-- Structures (struct wording / struct digit)
-- ===================================

/-- A word segment: debug text plus the LED indices it lights
(struct `wording` in the sketch). -/
structure Word where
  text : String
  leds : List Nat
deriving DecidableEq, Repr

/-- A single-LED digit segment (struct `digit` in the sketch). -/
structure Digit where
  text : String
  led : Nat
deriving DecidableEq, Repr

-- ===================================
-- Segment catalog (the A_* arrays and Word/Digit tables)
-- ===================================

def A_IT : List Nat := [0, 1]
def IT : Word := ⟨"IT", A_IT⟩

def A_IS : List Nat := [3, 4]
def IS : Word := ⟨"IS", A_IS⟩

def A_M5 : List Nat := [29, 30, 31, 32]
def A_M10 : List Nat := [21, 20, 19]
def A_M15 : List Nat := [7, 17, 16, 15, 14, 13, 12, 11]
def A_M20 : List Nat := [23, 24, 25, 26, 27, 28]
def A_M25 : List Nat := [23, 24, 25, 26, 27, 28, 29, 30, 31, 32]
def A_M30 : List Nat := [6, 7, 8, 9]

def wM5 : Word := ⟨"M5", A_M5⟩
def wM10 : Word := ⟨"M10", A_M10⟩
def wM15 : Word := ⟨"M15", A_M15⟩
def wM20 : Word := ⟨"M20", A_M20⟩
def wM25 : Word := ⟨"M25", A_M25⟩
def wM30 : Word := ⟨"M30", A_M30⟩

def W_MINS : List Word := [wM5, wM10, wM15, wM20, wM25, wM30]

def A_TO : List Nat := [43, 42]
def TO : Word := ⟨"TO", A_TO⟩

def A_PAST : List Nat := [41, 40, 39, 38]
def PAST : Word := ⟨"PAST", A_PAST⟩

def A_H12 : List Nat := [60, 59, 58, 57, 56, 55]
def A_H1 : List Nat := [73, 74, 75]
def A_H2 : List Nat := [48, 49, 50]
def A_H3 : List Nat := [65, 64, 63, 62, 61]
def A_H4 : List Nat := [36, 35, 34, 33]
def A_H5 : List Nat := [44, 45, 46, 47]
def A_H6 : List Nat := [92, 93, 94]
def A_H7 : List Nat := [87, 86, 85, 84, 83]
def A_H8 : List Nat := [81, 80, 79, 78, 77]
def A_H9 : List Nat := [51, 52, 53, 54]
def A_H10 : List Nat := [89, 90, 91]
def A_H11 : List Nat := [67, 68, 69, 70, 71, 72]

def wH12 : Word := ⟨"H12", A_H12⟩
def wH1 : Word := ⟨"H1", A_H1⟩
def wH2 : Word := ⟨"H2", A_H2⟩
def wH3 : Word := ⟨"H3", A_H3⟩
def wH4 : Word := ⟨"H4", A_H4⟩
def wH5 : Word := ⟨"H5", A_H5⟩
def wH6 : Word := ⟨"H6", A_H6⟩
def wH7 : Word := ⟨"H7", A_H7⟩
def wH8 : Word := ⟨"H8", A_H8⟩
def wH9 : Word := ⟨"H9", A_H9⟩
def wH10 : Word := ⟨"H10", A_H10⟩
def wH11 : Word := ⟨"H11", A_H11⟩

def W_HOURS : List Word :=
  [wH12, wH1, wH2, wH3, wH4, wH5, wH6, wH7, wH8, wH9, wH10, wH11]

def A_AM : List Nat := [107, 106]
def AM : Word := ⟨"AM", A_AM⟩

def A_PM : List Nat := [102, 101]
def PM : Word := ⟨"PM", A_PM⟩

def SCHEDULE : Digit := ⟨"S", 110⟩

def DIGITS : List Digit :=
  [⟨"D0", 111⟩, ⟨"D1", 112⟩, ⟨"D2", 113⟩, ⟨"D3", 114⟩, ⟨"D4", 115⟩,
   ⟨"D5", 116⟩, ⟨"D6", 117⟩, ⟨"D7", 118⟩, ⟨"D8", 119⟩, ⟨"D9", 120⟩]

def A_CHK : List Nat := [64, 68, 84, 92, 82, 72, 58, 52, 34]
def CHK : Word := ⟨"CHK", A_CHK⟩

/-- Default word used only as the `getD` default for lookups that are
provably in bounds (the hour and digit tables). -/
def noWord : Word := ⟨"", []⟩

/-- Default digit used only as the `getD` default for in-bounds lookups. -/
def noDigit : Digit := ⟨"", 0⟩

-- ===================================
-- Time-to-words mapper (handleDisplayTime and showMinutes)
-- ===================================

/-- Model of `bool showMinutes(int mins) { return ((mins < 56) || (mins == 0)); }`. -/
def showMinutes (mins : Nat) : Bool :=
  (mins < 56) || (mins == 0)

/-- The five-minute bucket index computed inside `handleDisplayTime`:
`(t.Minute > 30) ? (MIN_PARTS - 2) - ((t.Minute - 31) / MIN_STEP)
                : t.Minute / MIN_STEP`
(the `floor` calls in the sketch are no-ops on integer arguments). -/
def minuteIdx (minute : Nat) : Int :=
  if minute > 30 then (MIN_PARTS - 2) - (((minute : Int) - 31) / MIN_STEP)
  else (minute : Int) / MIN_STEP

/-- Guarded lookup into `W_MINS`, the Option-returning rendering of the raw
array access `W_MINS[idx]`; `none` means the access left the table. -/
def wMinsGet (i : Int) : Option Word :=
  if 0 ≤ i then W_MINS[i.toNat]? else none

/-- Everything `handleDisplayTime` decides for one (hour, minute) reading:
the words it colors, the digit segments it colors, and whether the
five-minute bucket access stayed inside `W_MINS`. -/
structure DisplayOut where
  words : List Word
  minuteIndexOK : Bool
  digits : List Digit
deriving DecidableEq, Repr

/-- Pure core of `handleDisplayTime` from the sketch: the sequence of
`setColorForWord` / `setColorForDigit` calls for reading (hour, minute). -/
def handleDisplayTime (hour minute : Nat) : DisplayOut :=
  let minuteLookup : Option (Option Word) :=
    if showMinutes minute then some (wMinsGet (minuteIdx minute)) else none
  let minuteWord : List Word :=
    match minuteLookup with
    | some (some w) => [w]
    | _ => []
  let relationWord : List Word :=
    if showMinutes minute then (if minute > 30 then [TO] else [PAST]) else []
  let hourWord : Word :=
    if minute > 30 then W_HOURS.getD ((hour + 1) % 12) noWord
    else W_HOURS.getD (hour % 12) noWord
  let daytimeWord : Word := if hour > 12 then PM else AM
  let m1 : Nat := minute / 10
  let m2 : Nat := minute - m1 * 10
  let digitList : List Digit :=
    if m1 == m2 then [DIGITS.getD m1 noDigit]
    else [DIGITS.getD m1 noDigit, DIGITS.getD m2 noDigit]
  { words := [IT, IS] ++ minuteWord ++ relationWord ++ [hourWord, daytimeWord]
    minuteIndexOK :=
      match minuteLookup with
      | some none => false
      | _ => true
    digits := digitList }

-- ===================================
-- Schedule evaluator (shouldGoToSleep)
-- ===================================

/-- Function `shouldGoToSleep` from the sketch, with the schedule flag and the hour
read from the RTC made explicit parameters. -/
def shouldGoToSleep (isScheduleActive : Bool) (hour : Nat) : Bool :=
  if !isScheduleActive then false
  else decide (RTC_ALIVE_FROM > hour) || decide (hour ≥ RTC_ALIVE_TO)

/-- C5: `shouldGoToSleep` is false whenever the schedule is inactive,
regardless of the hour; with the schedule active it is true exactly for
hours outside the configured window [6, 23), i.e. hour < 6 or hour ≥ 23,
and false for every hour inside the window. -/
theorem c5_sleep_schedule (h : Nat) :
    shouldGoToSleep false h = false ∧
    (shouldGoToSleep true h = true ↔ (h < RTC_ALIVE_FROM ∨ RTC_ALIVE_TO ≤ h)) ∧
    (shouldGoToSleep true h = false ↔ (RTC_ALIVE_FROM ≤ h ∧ h < RTC_ALIVE_TO)) := by
  refine ⟨rfl, ?_, ?_⟩ <;>
    simp [shouldGoToSleep, RTC_ALIVE_FROM, RTC_ALIVE_TO]

-- ===================================
-- Command interpreter state (the globals touched by evaluateIRResult)
-- ===================================

/-- The sketch globals that `evaluateIRResult` and its callees can mutate. -/
structure ClockState where
  ledMode : Nat
  fps : Nat
  newBrightness : Nat
  hue : Nat
  isScheduleActive : Bool
  autoCycleHue : Bool
  autoCycleBrightness : Bool
  blinkToConfirm : Bool
deriving DecidableEq, Repr

/-- Function `setLEDModeState` from the sketch (the debug message argument carries no
state and is dropped). -/
def setLEDModeState (s : ClockState) (mode _fps : Nat) : ClockState :=
  { s with ledMode := mode, fps := _fps }

/-- Function `increaseBrightness` from the sketch.  `newBrightness` is a `uint8_t`
but the comparisons happen after integer promotion, so the sum is modelled
in `Int`; the stored result is clamped into [0, 200] before truncation. -/
def increaseBrightness (stepSize : Int) (s : ClockState) : ClockState :=
  if (s.newBrightness : Int) + stepSize > 200 then { s with newBrightness := 200 }
  else if (s.newBrightness : Int) + stepSize < 0 then { s with newBrightness := 0 }
  else { s with newBrightness := ((s.newBrightness : Int) + stepSize).toNat }

/-- Function `increaseHue` from the sketch: `hue += stepSize` on a `uint8_t`, i.e.
wraparound modulo 256 with no clamping. -/
def increaseHue (stepSize : Int) (s : ClockState) : ClockState :=
  { s with hue := (((s.hue : Int) + stepSize) % 256).toNat }

-- The 15 recognized remote-control codes (lower 16 bits of the 32-bit
-- values, as in the sketch's comment block).

def IR_ZERO : Nat := 0x2FEC
def IR_ONE : Nat := 0x2FC8
def IR_TWO : Nat := 0x2FE8
def IR_THREE : Nat := 0x2FD8
def IR_FOUR : Nat := 0x2FF8
def IR_FIVE : Nat := 0x2FC4
def IR_SIX : Nat := 0x2FE4
def IR_SEVEN : Nat := 0x2FD4
def IR_VOL_UP : Nat := 0x2FFC
def IR_VOL_DOWN : Nat := 0x2FDC
def IR_UP : Nat := 0x2FCE
def IR_DOWN : Nat := 0x2FF6
def IR_POWER : Nat := 0x2FD0
def IR_AUTO_HUE : Nat := 0x2FD6
def IR_AUTO_BRIGHTNESS : Nat := 0x2FEA

/-- The entries of the `switch (valueToCheck)` command table. -/
def irCommandCodes : List Nat :=
  [IR_ZERO, IR_ONE, IR_TWO, IR_THREE, IR_FOUR, IR_FIVE, IR_SIX, IR_SEVEN,
   IR_VOL_UP, IR_VOL_DOWN, IR_UP, IR_DOWN, IR_POWER, IR_AUTO_HUE,
   IR_AUTO_BRIGHTNESS]

/-- Function `evaluateIRResult(uint32_t result)` from the sketch: the lower 16 bits
of the code are matched against the command table; the matching arm mutates
the state, a fall-through leaves it alone. -/
def evaluateIRResult (result : Nat) (s : ClockState) : ClockState :=
  let valueToCheck : Nat := result % 65536
  if valueToCheck = IR_ZERO then setLEDModeState s LED_MODE_NORMAL 25
  else if valueToCheck = IR_ONE then setLEDModeState s LED_MODE_RAINBOW 60
  else if valueToCheck = IR_TWO then setLEDModeState s LED_MODE_RAINBOW_GLITTER 60
  else if valueToCheck = IR_THREE then setLEDModeState s LED_MODE_CONFETTI 60
  else if valueToCheck = IR_FOUR then setLEDModeState s LED_MODE_SINELON 60
  else if valueToCheck = IR_FIVE then setLEDModeState s LED_MODE_BPM 60
  else if valueToCheck = IR_SIX then setLEDModeState s LED_MODE_JUGGLE 60
  else if valueToCheck = IR_SEVEN then setLEDModeState s LED_MODE_MATRIX 25
  else if valueToCheck = IR_VOL_UP then increaseBrightness LED_BRIGHTNESS_STEP s
  else if valueToCheck = IR_VOL_DOWN then increaseBrightness (LED_BRIGHTNESS_STEP * -1) s
  else if valueToCheck = IR_UP then increaseHue LED_HUE_STEP s
  else if valueToCheck = IR_DOWN then increaseHue (LED_HUE_STEP * -1) s
  else if valueToCheck = IR_POWER then
    { s with isScheduleActive := !s.isScheduleActive, blinkToConfirm := true }
  else if valueToCheck = IR_AUTO_HUE then
    { s with autoCycleHue := !s.autoCycleHue, blinkToConfirm := true }
  else if valueToCheck = IR_AUTO_BRIGHTNESS then
    { s with autoCycleBrightness := !s.autoCycleBrightness, blinkToConfirm := true }
  else s

-- ===================================
-- IR cooldown transition system (ISR tick / handleIRresults / loop)
-- ===================================

/-- The cooldown-relevant globals: the render-suppression flag and the
8-bit tick counter. -/
structure IRState where
  pauseAnimations : Bool
  irCtr : Nat
deriving DecidableEq, Repr

/-- Events that touch the cooldown state: a Timer1 interrupt tick, or one
iteration of `loop` with no pending IR result. -/
inductive IREvent
  | tick
  | loopStep
deriving DecidableEq, Repr

/-- Effect of `handleIRresults` when the decoder reports an unrecognized
protocol (`irResults.decode_type == UNKNOWN`): `irCtr = 0;
pauseAnimations = true;` and the decoder is re-armed. -/
def unknownSignal (s : IRState) : IRState :=
  { s with pauseAnimations := true, irCtr := 0 }

/-- One step of the cooldown system, paired with the number of display
updates performed so far.  `tick` is `irCtr++` in the Timer1 ISR (8-bit
wraparound).  `loopStep` is one `loop` iteration with no pending IR result:
when `pauseAnimations` is false the display is updated, otherwise, once
`irCtr >= IR_PAUSE`, the loop clears `pauseAnimations` (and renders again
from the following iteration on). -/
def irStep : IRState × Nat → IREvent → IRState × Nat
  | (s, n), IREvent.tick => ({ s with irCtr := (s.irCtr + 1) % 256 }, n)
  | (s, n), IREvent.loopStep =>
    if s.pauseAnimations then
      if IR_PAUSE ≤ s.irCtr then ({ s with pauseAnimations := false }, n)
      else (s, n)
    else (s, n + 1)

/-- Run a sequence of cooldown events from a state, counting display
updates. -/
def irRun (s : IRState) (es : List IREvent) : IRState × Nat :=
  es.foldl irStep (s, 0)

/-- Number of Timer1 ticks in an event sequence. -/
def countTicks : List IREvent → Nat
  | [] => 0
  | IREvent.tick :: es => countTicks es + 1
  | IREvent.loopStep :: es => countTicks es

-- ===================================
-- Helper lemmas
-- ===================================

/-- While `pauseAnimations` is set and fewer than `IR_PAUSE` ticks have
accumulated on `irCtr`, every cooldown event keeps the pause flag set,
`irCtr` just counts the ticks, and no display update happens. -/
lemma irRun_paused (es : List IREvent) :
    ∀ (s : IRState) (n : Nat), s.pauseAnimations = true →
      s.irCtr + countTicks es < IR_PAUSE →
      (es.foldl irStep (s, n)).1.pauseAnimations = true ∧
      (es.foldl irStep (s, n)).1.irCtr = s.irCtr + countTicks es ∧
      (es.foldl irStep (s, n)).2 = n := by
  induction es with
  | nil =>
    intro s n hp _
    exact ⟨hp, by simp [countTicks], rfl⟩
  | cons e es ih =>
    intro s n hp hc
    cases e with
    | tick =>
      have hlt : s.irCtr + 1 < 256 := by
        simp only [countTicks, IR_PAUSE] at hc; omega
      have step_eq : irStep (s, n) IREvent.tick = ({ s with irCtr := s.irCtr + 1 }, n) := by
        simp [irStep, Nat.mod_eq_of_lt hlt]
      have hc' : ({ s with irCtr := s.irCtr + 1 } : IRState).irCtr + countTicks es < IR_PAUSE := by
        simp only [countTicks] at hc ⊢; omega
      have h := ih { s with irCtr := s.irCtr + 1 } n hp hc'
      rw [List.foldl_cons, step_eq]
      refine ⟨h.1, ?_, h.2.2⟩
      rw [h.2.1]; simp only [countTicks]; omega
    | loopStep =>
      have hctr : ¬ IR_PAUSE ≤ s.irCtr := by
        simp only [countTicks, IR_PAUSE] at hc ⊢; omega
      have step_eq : irStep (s, n) IREvent.loopStep = (s, n) := by
        simp [irStep, hp, hctr]
      have hc' : s.irCtr + countTicks es < IR_PAUSE := by
        simp only [countTicks] at hc; omega
      have h := ih s n hp hc'
      rw [List.foldl_cons, step_eq]
      exact ⟨h.1, by rw [h.2.1]; simp only [countTicks], h.2.2⟩

/-- A single `increaseBrightness` call lands `newBrightness` in [0, 200]
whatever the starting value was. -/
lemma increaseBrightness_le (stepSize : Int) (s : ClockState) :
    (increaseBrightness stepSize s).newBrightness ≤ 200 := by
  unfold increaseBrightness
  split
  · simp
  · split
    · simp
    · simp only; omega

-- ===================================
-- Claim theorems
-- ===================================

/-- C1 (code evaluation at the failing inputs): the claim says the mapper
shows PAST plus the bucket word for the minute itself (M10 at minute 10,
M30 at minute 30).  The code computes index minute/5 into W_MINS, which
selects the next bucket word instead — at 14:10 it lights M15 ("quarter")
and not M10, at 14:05 it lights M10 and not M5 — and at minute 30 the index
is 6, outside the 6-entry table, so no in-bounds word exists at all. -/
theorem c1_bucket_word_eval :
    wM15 ∈ (handleDisplayTime 14 10).words ∧
    wM10 ∉ (handleDisplayTime 14 10).words ∧
    wM10 ∈ (handleDisplayTime 14 5).words ∧
    wM5 ∉ (handleDisplayTime 14 5).words ∧
    PAST ∈ (handleDisplayTime 14 5).words ∧
    showMinutes 30 = true ∧
    minuteIdx 30 = 6 ∧
    (handleDisplayTime 14 30).minuteIndexOK = false ∧
    wM30 ∉ (handleDisplayTime 14 30).words := by decide

/-- C2 (code evaluation at the failing input): at minute 30 the minute word
is shown (`showMinutes 30 = true`) but the computed bucket index is 6,
outside the valid range [0,5] of the 6-entry W_MINS table, so the guarded
lookup takes its out-of-range branch — the mapper is not total over
hour ∈ [0,23], minute ∈ [0,59]. -/
theorem c2_minute_index_oob :
    showMinutes 30 = true ∧
    minuteIdx 30 = 6 ∧
    W_MINS.length = 6 ∧
    wMinsGet (minuteIdx 30) = none ∧
    (handleDisplayTime 0 30).minuteIndexOK = false := by decide

/-- C3 (code evaluation at the failing input): at minute 0 the suppression
rule does not hold — `showMinutes 0` is true because of the
`|| (mins == 0)` disjunct, so the mapper emits the M5 bucket word and PAST
at every full hour, contrary to the claim (and to the function's own doc
comment). -/
theorem c3_minute_zero_eval :
    showMinutes 0 = true ∧
    wM5 ∈ (handleDisplayTime 5 0).words ∧
    PAST ∈ (handleDisplayTime 5 0).words := by decide

set_option maxHeartbeats 1000000 in
/-- C4: for every hour and every minute in {35, 40, 45, 50, 55} the mapper
emits TO, the mirrored bucket word denoting 60 − minute (M25 at 35, M20 at
40, M15 at 45, M10 at 50, M5 at 55), and the hour word at index
(hour + 1) mod 12 of W_HOURS, whose index 0 holds the "twelve" word. -/
theorem c4_to_branch :
    ∀ h < 24,
      (TO ∈ (handleDisplayTime h 35).words ∧ wM25 ∈ (handleDisplayTime h 35).words ∧
        W_HOURS.getD ((h + 1) % 12) noWord ∈ (handleDisplayTime h 35).words) ∧
      (TO ∈ (handleDisplayTime h 40).words ∧ wM20 ∈ (handleDisplayTime h 40).words ∧
        W_HOURS.getD ((h + 1) % 12) noWord ∈ (handleDisplayTime h 40).words) ∧
      (TO ∈ (handleDisplayTime h 45).words ∧ wM15 ∈ (handleDisplayTime h 45).words ∧
        W_HOURS.getD ((h + 1) % 12) noWord ∈ (handleDisplayTime h 45).words) ∧
      (TO ∈ (handleDisplayTime h 50).words ∧ wM10 ∈ (handleDisplayTime h 50).words ∧
        W_HOURS.getD ((h + 1) % 12) noWord ∈ (handleDisplayTime h 50).words) ∧
      (TO ∈ (handleDisplayTime h 55).words ∧ wM5 ∈ (handleDisplayTime h 55).words ∧
        W_HOURS.getD ((h + 1) % 12) noWord ∈ (handleDisplayTime h 55).words) ∧
      W_HOURS.getD 0 noWord = wH12 := by
  intro h hh
  interval_cases h <;> decide

/-- Witness for C4 at hour 14, minute 50: "ten to three" (the spec's own
scenario 14:50). -/
theorem c4_to_branch_witness :
    (14 : Nat) < 24 ∧
    TO ∈ (handleDisplayTime 14 50).words ∧
    wM10 ∈ (handleDisplayTime 14 50).words :=
  ⟨by decide, (c4_to_branch 14 (by decide)).2.2.2.1.1,
    (c4_to_branch 14 (by decide)).2.2.2.1.2.1⟩

/-- C6: an unrecognized-protocol signal sets `pauseAnimations` with `irCtr`
reset to 0; from then on, as long as fewer than IR_PAUSE = 3 timer ticks
have occurred, every loop iteration leaves the pause flag set and performs
no display update; and after exactly 3 ticks the next loop iteration clears
the flag (still without rendering) and the following iteration renders
again, with no further input involved. -/
theorem c6_ir_cooldown (s : IRState) (es : List IREvent)
    (h : countTicks es < IR_PAUSE) :
    ((unknownSignal s).pauseAnimations = true ∧ (unknownSignal s).irCtr = 0) ∧
    (irRun (unknownSignal s) es).1.pauseAnimations = true ∧
    (irRun (unknownSignal s) es).2 = 0 ∧
    irRun (unknownSignal s)
        [IREvent.tick, IREvent.tick, IREvent.tick, IREvent.loopStep, IREvent.loopStep]
      = (⟨false, 3⟩, 1) := by
  have hq := irRun_paused es (unknownSignal s) 0 rfl (by simpa [unknownSignal] using h)
  exact ⟨⟨rfl, rfl⟩, hq.1, hq.2.2, rfl⟩

/-- Witness for C6: a concrete quiet trace with two ticks (fewer than
IR_PAUSE) keeps the pause flag set and performs no display update. -/
theorem c6_ir_cooldown_witness :
    countTicks [IREvent.tick, IREvent.loopStep, IREvent.tick] < IR_PAUSE ∧
    (irRun (unknownSignal ⟨false, 7⟩)
        [IREvent.tick, IREvent.loopStep, IREvent.tick]).1.pauseAnimations = true ∧
    (irRun (unknownSignal ⟨false, 7⟩)
        [IREvent.tick, IREvent.loopStep, IREvent.tick]).2 = 0 :=
  ⟨by decide,
    (c6_ir_cooldown ⟨false, 7⟩ [IREvent.tick, IREvent.loopStep, IREvent.tick]
      (by decide)).2.1,
    (c6_ir_cooldown ⟨false, 7⟩ [IREvent.tick, IREvent.loopStep, IREvent.tick]
      (by decide)).2.2.1⟩

/-- C7: a 32-bit code whose lower 16 bits match none of the 15 command-table
entries leaves the whole interpreter state unchanged: `evaluateIRResult` is
the identity on every field. -/
theorem c7_unknown_code_ignored (result : Nat) (s : ClockState)
    (h : result % 65536 ∉ irCommandCodes) :
    evaluateIRResult result s = s := by
  simp only [irCommandCodes, List.mem_cons, List.not_mem_nil, or_false,
    not_or] at h
  obtain ⟨h0, h1, h2, h3, h4, h5, h6, h7, h8, h9, h10, h11, h12, h13, h14⟩ := h
  simp [evaluateIRResult, h0, h1, h2, h3, h4, h5, h6, h7, h8, h9, h10, h11,
    h12, h13, h14]

/-- Witness for C7: code 0 (lower 16 bits 0x0000) matches no table entry and
changes nothing. -/
theorem c7_unknown_code_ignored_witness :
    ((0 : Nat) % 65536 ∉ irCommandCodes) ∧
    evaluateIRResult 0 (ClockState.mk 0 60 20 0 false false false false) =
      ClockState.mk 0 60 20 0 false false false false :=
  ⟨by decide,
    c7_unknown_code_ignored 0 (ClockState.mk 0 60 20 0 false false false false)
      (by decide)⟩

/-- C8: starting from any `newBrightness` in [0, 200], one call to
`increaseBrightness` with any signed step keeps the value in [0, 200] (the
lower bound holds because the value is a natural number), and so does any
number of repeated calls with the same step. -/
theorem c8_brightness_clamped (s : ClockState) (stepSize : Int)
    (h : s.newBrightness ≤ 200) :
    (increaseBrightness stepSize s).newBrightness ≤ 200 ∧
    (∀ n : Nat, ((increaseBrightness stepSize)^[n] s).newBrightness ≤ 200) := by
  refine ⟨increaseBrightness_le stepSize s, ?_⟩
  intro n
  cases n with
  | zero => simpa using h
  | succ k =>
    rw [Function.iterate_succ_apply']
    exact increaseBrightness_le _ _

/-- Witness for C8 at brightness 20 (the power-on default) and the
configured step 10. -/
theorem c8_brightness_clamped_witness :
    (ClockState.mk 0 60 20 0 false false false false).newBrightness ≤ 200 ∧
    (increaseBrightness LED_BRIGHTNESS_STEP
      (ClockState.mk 0 60 20 0 false false false false)).newBrightness ≤ 200 :=
  ⟨by decide,
    (c8_brightness_clamped (ClockState.mk 0 60 20 0 false false false false)
      LED_BRIGHTNESS_STEP (by decide)).1⟩

set_option maxHeartbeats 1000000 in
/-- C9: for every hour in [0,23] and minute in [0,59] the mapper emits PM
exactly when hour > 12 and AM otherwise; in particular hour 0 (midnight)
and hour 12 (noon) both render as AM. -/
theorem c9_daytime_word :
    ∀ h < 24, ∀ m < 60,
      ((PM ∈ (handleDisplayTime h m).words) ↔ 12 < h) ∧
      ((AM ∈ (handleDisplayTime h m).words) ↔ h ≤ 12) := by decide

/-- Witness for C9 at midnight, noon and 14:10. -/
theorem c9_daytime_word_witness :
    ((0 : Nat) < 24 ∧ (0 : Nat) < 60 ∧ AM ∈ (handleDisplayTime 0 0).words) ∧
    ((12 : Nat) < 24 ∧ (30 : Nat) < 60 ∧ AM ∈ (handleDisplayTime 12 30).words) ∧
    ((14 : Nat) < 24 ∧ (10 : Nat) < 60 ∧ PM ∈ (handleDisplayTime 14 10).words) :=
  ⟨⟨by decide, by decide,
      (c9_daytime_word 0 (by decide) 0 (by decide)).2.mpr (by decide)⟩,
   ⟨by decide, by decide,
      (c9_daytime_word 12 (by decide) 30 (by decide)).2.mpr (by decide)⟩,
   ⟨by decide, by decide,
      (c9_daytime_word 14 (by decide) 10 (by decide)).1.mpr (by decide)⟩⟩

set_option maxHeartbeats 1000000 in
/-- C10: for every hour and every minute in [1,4] the mapper emits the first
bucket word M5 together with PAST — the display reads "five past" during
the first four minutes after the hour — in addition to IT, IS, the hour
word at index hour mod 12, the daytime word, and the two minute digits. -/
theorem c10_first_minutes :
    ∀ h < 24, ∀ m < 5, 1 ≤ m →
      wM5 ∈ (handleDisplayTime h m).words ∧
      PAST ∈ (handleDisplayTime h m).words ∧
      IT ∈ (handleDisplayTime h m).words ∧
      IS ∈ (handleDisplayTime h m).words ∧
      W_HOURS.getD (h % 12) noWord ∈ (handleDisplayTime h m).words ∧
      (if 12 < h then PM else AM) ∈ (handleDisplayTime h m).words ∧
      (handleDisplayTime h m).digits =
        [DIGITS.getD 0 noDigit, DIGITS.getD m noDigit] := by
  intro h hh m hm hm1
  interval_cases h <;> interval_cases m <;> decide

/-- Witness for C10 at 14:03. -/
theorem c10_first_minutes_witness :
    (14 : Nat) < 24 ∧ (3 : Nat) < 5 ∧ (1 : Nat) ≤ 3 ∧
    wM5 ∈ (handleDisplayTime 14 3).words ∧
    PAST ∈ (handleDisplayTime 14 3).words :=
  ⟨by decide, by decide, by decide,
    (c10_first_minutes 14 (by decide) 3 (by decide) (by decide)).1,
    (c10_first_minutes 14 (by decide) 3 (by decide) (by decide)).2.1⟩
